import Mathlib

/-
Shallow embedding of src/documents/tasks.py (paperless-ngx task module).

Each Celery task is modelled as a pure Lean function from an environment
describing the behaviour of its collaborators (barcode reader, parser,
channel layer, classifier, relational store) to a result of type
`Except PyExc _`, an updated relational state where relevant, and an
ordered trace of the externally observable effects the Python code
performs.  Exceptions raised by collaborators are threaded as values of
`PyExc`; `try/except/finally` blocks and `transaction.atomic()` are
embedded by explicit case analysis: an exception escaping the atomic
block restores the pre-transaction relational state (Django rollback),
while effects already performed on the filesystem stay in the trace
(the filesystem has no rollback).
-/

namespace PaperlessTasks

/-- Python exception values that the task module can observe or raise.
`osError` stands for `OSError` (the only class caught around the
notification publish); `runtimeError` stands for any other
`Exception` subclass a collaborator may raise; `consumerError` is
`documents.consumer.ConsumerError`; `sanityCheckFailed` is
`documents.sanity_checker.SanityCheckFailedException`. -/
inductive PyExc where
  | osError (msg : String)
  | runtimeError (msg : String)
  | consumerError (msg : String)
  | sanityCheckFailed (msg : String)
  deriving DecidableEq

/-- `str(e)`: the message of an exception value. -/
def PyExc.msg : PyExc → String
  | PyExc.osError m => m
  | PyExc.runtimeError m => m
  | PyExc.consumerError m => m
  | PyExc.sanityCheckFailed m => m

/-- The payload dictionary sent on the status-update channel by
`consume_file` after a successful split. -/
structure Payload where
  filename : Option String
  task_id : Option String
  current_progress : Nat
  max_progress : Nat
  status : String
  message : String
  deriving DecidableEq

/-- Externally observable effects performed by the task functions, in
program order.  Logging calls, filesystem operations, collaborator
invocations and index operations each get a constructor. -/
inductive Effect where
  | logWarning (s : String)
  | logDebug (s : String)
  | logError (s : String)
  | logInfo (s : String)
  | logException (s : String)
  | logMessages
  | convertTiff (src dst : String)
  | scanBarcodes (file : String)
  | separatePages (file : String)
  | saveToDir (doc : String) (newname : Option String) (target_dir : String)
  | unlink (p : String)
  | publishAttempt (payload : Payload)
  | tryConsume (p : String)
  | loadModel
  | train
  | saveModel
  | openIndex
  | postSave (docId : Nat)
  | openWriter
  | indexUpdate (docId : Nat)
  | closeWriter
  | constructParser
  | parse (docId : Nat)
  | getThumbnail (docId : Nat)
  | readFile (p : String)
  | dbWrite (docId : Nat)
  | acquireLock
  | mkdir (p : String)
  | moveFile (src dst : String)
  | moveAttempt (src dst : String)
  | cleanup
  deriving DecidableEq

/-! ## consume_file -/

/-- Environment for `consume_file`: the values its collaborators return
for the one input path of the call.  `mimeType` is
`barcodes.get_file_mime_type(path)`; `supported` is
`barcodes.supported_file_type(mime_type)`; `convertedPath` is the temp
file `barcodes.convert_from_tiff_to_pdf(path)` would return;
`separators` is the page list from
`barcodes.scan_file_for_separating_barcodes`; `pages` is the
sub-document list from `barcodes.separate_pages`; `publishResult` is
the outcome of the channel-layer group send; `consumeResult` is the
outcome of `Consumer().try_consume_file` (a raised exception, or the
primary key of the created document, or `None`). -/
structure ConsumeEnv where
  barcodesEnabled : Bool
  mimeType : String
  supported : Bool
  convertedPath : String
  separators : List Nat
  pages : List String
  publishResult : Except PyExc Unit
  consumeResult : Except PyExc (Option Nat)

/-- `Path(path).parent` for an already-resolved absolute path string. -/
def parentDir (p : String) : String :=
  String.intercalate "/" ((p.splitOn "/").dropLast)

/-- The `newname` computed for the n-th sub-document:
`f"{str(n)}_" + override_filename` when the override is truthy,
`None` otherwise. -/
def newnameFor (override_filename : Option String) (n : Nat) : Option String :=
  match override_filename with
  | some f => if f = "" then none else some (toString n ++ "_" ++ f)
  | none => none

/-- The `for n, document in enumerate(document_list)` loop: one
`barcodes.save_to_dir` call per sub-document, counting from `n`. -/
def saveLoop (override_filename : Option String) (target_dir : String) :
    Nat → List String → List Effect
  | _, [] => []
  | n, d :: rest =>
      Effect.saveToDir d (newnameFor override_filename n) target_dir ::
        saveLoop override_filename target_dir (n + 1) rest

/-- Tail of `consume_file`: `Consumer().try_consume_file(path, ...)`
followed by the success return or the `ConsumerError` raise. -/
def tryConsumePart (env : ConsumeEnv) (path : String) :
    Except PyExc String × List Effect :=
  let tr := [Effect.tryConsume path]
  match env.consumeResult with
  | Except.error e => (Except.error e, tr)
  | Except.ok (some pk) =>
      (Except.ok ("Success. New document id " ++ toString pk ++ " created"), tr)
  | Except.ok none =>
      (Except.error (PyExc.consumerError
        ("Unknown error: Returned document was null, but no error message was given.")),
       tr)

/-- Prepend already-performed effects to a sub-computation's trace. -/
def withTrace (pre : List Effect) (r : Except PyExc String × List Effect) :
    Except PyExc String × List Effect :=
  (r.1, pre ++ r.2)

/-- Embedding of `consume_file` (src/documents/tasks.py, lines 86-193).
Returns the task result (or raised exception) and the effect trace. -/
def consume_file (env : ConsumeEnv) (path : String)
    (override_filename : Option String) (task_id : Option String) :
    Except PyExc String × List Effect :=
  if env.barcodesEnabled = true then
    if env.supported = false then
      withTrace
        [Effect.logWarning ("Unsupported file format for barcode reader: " ++ env.mimeType)]
        (tryConsumePart env path)
    else
      let file_to_process :=
        if env.mimeType = "image/tiff" then env.convertedPath else path
      let scanTrace :=
        (if env.mimeType = "image/tiff" then
          [Effect.convertTiff path env.convertedPath] else [])
        ++ [Effect.scanBarcodes file_to_process]
        ++ (if env.separators ≠ [] then
              [Effect.logDebug ("Pages with separators found in: " ++ path),
               Effect.separatePages file_to_process]
            else [])
      let document_list := if env.separators ≠ [] then env.pages else []
      if document_list ≠ [] then
        let splitTrace := scanTrace
          ++ saveLoop override_filename (parentDir path) 0 document_list
          ++ (if env.mimeType = "image/tiff" then
                [Effect.logDebug ("Deleting file " ++ file_to_process),
                 Effect.unlink file_to_process]
              else [])
          ++ [Effect.logDebug ("Deleting file " ++ path),
              Effect.unlink path,
              Effect.publishAttempt
                (Payload.mk override_filename task_id 100 100 "SUCCESS" "finished")]
        match env.publishResult with
        | Except.ok _ => (Except.ok ("File successfully split"), splitTrace)
        | Except.error (PyExc.osError m) =>
            (Except.ok ("File successfully split"),
             splitTrace
               ++ [Effect.logWarning ("OSError. It could be, the broker cannot be reached."),
                   Effect.logWarning m])
        | Except.error e => (Except.error e, splitTrace)
      else
        withTrace scanTrace (tryConsumePart env path)
  else
    tryConsumePart env path

/-! ## train_classifier -/

/-- The `matching_algorithm` constant flagging an entity for automatic
(classifier-based) matching; `Tag.MATCH_AUTO` in the Django models. -/
def MATCH_AUTO : Nat := 6

/-- The matching-rule entities present in the corpus, reduced to the
one attribute `train_classifier` reads: each list holds the
`matching_algorithm` value of one Tag / DocumentType / Correspondent /
StoragePath record. -/
structure Corpus where
  tags : List Nat
  document_types : List Nat
  correspondents : List Nat
  storage_paths : List Nat

/-- Environment for `train_classifier`: `loadFinds` is whether
`load_classifier()` returns a persisted model (else a fresh
`DocumentClassifier()` is constructed); `trainResult` is the outcome
of `classifier.train()` (a raised exception or the did-change flag). -/
structure TrainEnv where
  loadFinds : Bool
  trainResult : Except PyExc Bool

/-- Embedding of `train_classifier` (src/documents/tasks.py, lines
57-83).  The early return fires exactly when no entity of any of the
four kinds has `matching_algorithm == MATCH_AUTO`. -/
def train_classifier (c : Corpus) (env : TrainEnv) :
    Except PyExc Unit × List Effect :=
  if !(c.tags.any (fun a => a = MATCH_AUTO))
      && !(c.document_types.any (fun a => a = MATCH_AUTO))
      && !(c.correspondents.any (fun a => a = MATCH_AUTO))
      && !(c.storage_paths.any (fun a => a = MATCH_AUTO)) then
    (Except.ok (), [])
  else
    let tr := [Effect.loadModel]
    match env.trainResult with
    | Except.ok true =>
        (Except.ok (),
         tr ++ [Effect.train,
                Effect.logInfo ("Saving updated classifier model"),
                Effect.saveModel])
    | Except.ok false =>
        (Except.ok (), tr ++ [Effect.train, Effect.logDebug ("Training data unchanged.")])
    | Except.error e =>
        (Except.ok (),
         tr ++ [Effect.train, Effect.logWarning ("Classifier error: " ++ e.msg)])

/-! ## sanity_check -/

/-- Severity level of a consistency-check message. -/
inductive Level where
  | info
  | warning
  | error
  deriving DecidableEq

/-- The message container returned by `sanity_checker.check_sanity()`:
an ordered list of leveled messages. -/
structure Messages where
  msgs : List (Level × String)

/-- Modelled from the spec: the consistency-check collaborator
(`documents.sanity_checker`, not part of this module) exposes the
aggregate flag `has_error` — true when the message set contains at
least one error-level message. -/
def Messages.has_error (m : Messages) : Bool :=
  m.msgs.any (fun p => p.1 = Level.error)

/-- Modelled from the spec: aggregate flag `has_warning` — true when
the message set contains at least one warning-level message. -/
def Messages.has_warning (m : Messages) : Bool :=
  m.msgs.any (fun p => p.1 = Level.warning)

/-- `len(messages)`: the total number of messages. -/
def Messages.length (m : Messages) : Nat := m.msgs.length

/-- Embedding of `sanity_check` (src/documents/tasks.py, lines
196-209). -/
def sanity_check (m : Messages) : Except PyExc String × List Effect :=
  let tr := [Effect.logMessages]
  if m.has_error then
    (Except.error (PyExc.sanityCheckFailed ("Sanity check failed with errors. See log.")), tr)
  else if m.has_warning then
    (Except.ok ("Sanity check exited with warnings. See log."), tr)
  else if m.length > 0 then
    (Except.ok ("Sanity check exited with infos. See log."), tr)
  else
    (Except.ok ("No issues detected."), tr)

/-! ## bulk_update_documents -/

/-- A document record, reduced to the fields the task module reads and
writes: identity, MIME type, and the three fields rewritten by the
archive regenerator. -/
structure DocRec where
  id : Nat
  mime_type : String
  archive_checksum : Option String
  content : String
  archive_filename : Option String
  deriving DecidableEq

/-- Embedding of `bulk_update_documents` (src/documents/tasks.py,
lines 212-223).  `db` is the enumeration of all document records;
`Document.objects.filter(id__in=document_ids)` keeps those whose id is
in the list.  The trace is: open the index, send one post_save signal
per matching document, then open one writer session, update every
matching document in it, and close it. -/
def bulk_update_documents (db : List DocRec) (document_ids : List Nat) :
    List Effect :=
  let documents := db.filter (fun d => document_ids.contains d.id)
  [Effect.openIndex]
    ++ documents.map (fun d => Effect.postSave d.id)
    ++ [Effect.openWriter]
    ++ documents.map (fun d => Effect.indexUpdate d.id)
    ++ [Effect.closeWriter]

/-! ## update_document_archive_file -/

/-- The relational store, keyed by document id. -/
def DB : Type := Nat → Option DocRec

/-- Overwrite one record (the `UPDATE ... WHERE pk = id` statement). -/
def DB.set (db : DB) (i : Nat) (d : DocRec) : DB :=
  fun j => if j = i then some d else db j

/-- Environment for `update_document_archive_file`: `hasParserFor`
models `get_parser_class_for_mime_type` returning a class or `None`;
the `Raises` flags say which collaborator call raises; `archiveResultPath`
is `parser.get_archive_path()` (an archive artifact was produced or
not); `parserText` is `parser.get_text()`; `checksumOfArchive` is the
md5 hex digest of the artifact's bytes; `uniqueFilename` is
`generate_unique_filename(document, archive_filename=True)`;
`thumbnailPath` is the thumbnail artifact returned by
`parser.get_thumbnail`; `archiveDest` and `thumbDest` are the
document's derived `archive_path` and `thumbnail_path`. -/
structure ArchiveEnv where
  hasParserFor : String → Bool
  parseRaises : Bool
  thumbRaises : Bool
  thumbnailPath : String
  archiveResultPath : Option String
  parserText : String
  checksumOfArchive : String
  uniqueFilename : String
  archiveDest : String
  thumbDest : String
  moveArchiveRaises : Bool
  moveThumbRaises : Bool
  indexRaises : Bool

/-- The `try` body of `update_document_archive_file`: parse, produce
the thumbnail, and — when an archive artifact exists — run the atomic
unit (checksum, DB update, lock, mkdir, two moves) and then the index
update.  Returns the body's outcome, the relational state after the
body (an exception escaping `transaction.atomic()` rolls the DB back
to its pre-transaction state), and the effect trace. -/
def archiveTryBody (env : ArchiveEnv) (db : DB) (document : DocRec) :
    Except PyExc Unit × DB × List Effect :=
  if env.parseRaises then
    (Except.error (PyExc.runtimeError ("parse failed")), db, [Effect.parse document.id])
  else
    let tr1 := [Effect.parse document.id, Effect.getThumbnail document.id]
    if env.thumbRaises then
      (Except.error (PyExc.runtimeError ("thumbnail failed")), db, tr1)
    else
      match env.archiveResultPath with
      | none => (Except.ok (), db, tr1)
      | some ap =>
          let doc2 : DocRec :=
            { document with
                archive_checksum := some env.checksumOfArchive,
                content := env.parserText,
                archive_filename := some env.uniqueFilename }
          let db2 := DB.set db document.id doc2
          let tr2 := tr1
            ++ [Effect.readFile ap, Effect.dbWrite document.id,
                Effect.acquireLock, Effect.mkdir env.archiveDest]
          if env.moveArchiveRaises then
            (Except.error (PyExc.osError ("move archive failed")), db,
             tr2 ++ [Effect.moveAttempt ap env.archiveDest])
          else
            let tr3 := tr2 ++ [Effect.moveFile ap env.archiveDest]
            if env.moveThumbRaises then
              (Except.error (PyExc.osError ("move thumbnail failed")), db,
               tr3 ++ [Effect.moveAttempt env.thumbnailPath env.thumbDest])
            else
              let tr4 := tr3 ++ [Effect.moveFile env.thumbnailPath env.thumbDest]
              if env.indexRaises then
                (Except.error (PyExc.runtimeError ("index update failed")), db2,
                 tr4 ++ [Effect.openWriter, Effect.closeWriter])
              else
                (Except.ok (), db2,
                 tr4 ++ [Effect.openWriter, Effect.indexUpdate document.id,
                         Effect.closeWriter])

/-- Embedding of `update_document_archive_file` (src/documents/tasks.py,
lines 226-285).  Resolves the document and a parser class; with no
parser, logs an error and returns.  Otherwise constructs the parser,
runs the `try` body, logs any exception the body raised (`except
Exception`), and always runs `parser.cleanup()` last (`finally`). -/
def update_document_archive_file (env : ArchiveEnv) (db : DB)
    (document_id : Nat) : Except PyExc Unit × DB × List Effect :=
  match db document_id with
  | none =>
      (Except.error (PyExc.runtimeError ("Document matching query does not exist.")),
       db, [])
  | some document =>
      if env.hasParserFor document.mime_type = false then
        (Except.ok (), db,
         [Effect.logError
            ("No parser found for mime type " ++ document.mime_type
              ++ ", cannot archive document (ID: " ++ toString document_id ++ ")")])
      else
        let body := archiveTryBody env db document
        match body.1 with
        | Except.ok _ =>
            (Except.ok (), body.2.1,
             Effect.constructParser :: body.2.2 ++ [Effect.cleanup])
        | Except.error _ =>
            (Except.ok (), body.2.1,
             Effect.constructParser :: body.2.2
               ++ [Effect.logException
                     ("Error while parsing document (ID: " ++ toString document_id ++ ")"),
                   Effect.cleanup])

/-! ## Helper lemmas -/

theorem effect_getLast_cons_append_one (x y : Effect) (l : List Effect) :
    (x :: (l ++ [y])).getLast? = some y := by
  rw [← List.cons_append, List.getLast?_append_cons]
  rfl

theorem effect_getLast_cons_append_two (x y z : Effect) (l : List Effect) :
    (x :: (l ++ [y, z])).getLast? = some z := by
  rw [← List.cons_append, List.getLast?_append_cons]
  rfl

theorem tryConsumePart_trace (env : ConsumeEnv) (path : String) :
    (tryConsumePart env path).2 = [Effect.tryConsume path] := by
  unfold tryConsumePart
  rcases env.consumeResult with e | r
  · rfl
  · rcases r with _ | pk <;> rfl

theorem saveLoop_mem_get (o : Option String) (dir : String) :
    ∀ (pages : List String) (n k : Nat) (hk : k < pages.length),
      Effect.saveToDir (pages.get ⟨k, hk⟩) (newnameFor o (n + k)) dir
        ∈ saveLoop o dir n pages := by
  intro pages
  induction pages with
  | nil => intro n k hk; simp at hk
  | cons d rest ih =>
      intro n k hk
      cases k with
      | zero => simp [saveLoop]
      | succ k2 =>
          have hk2 : k2 < rest.length := by simpa using hk
          have h := ih (n + 1) k2 hk2
          have harith : n + 1 + k2 = n + (k2 + 1) := by omega
          rw [harith] at h
          simp only [saveLoop, List.get_cons_succ]
          exact List.mem_cons_of_mem _ h

theorem saveLoop_shape (o : Option String) (dir : String) :
    ∀ (pages : List String) (n : Nat) (e : Effect), e ∈ saveLoop o dir n pages →
      ∃ b nm, e = Effect.saveToDir b nm dir := by
  intro pages
  induction pages with
  | nil => intro n e he; simp [saveLoop] at he
  | cons d rest ih =>
      intro n e he
      simp only [saveLoop] at he
      rcases List.mem_cons.mp he with h | h
      · exact ⟨d, newnameFor o n, h⟩
      · exact ih (n + 1) e h

theorem Messages.has_error_iff (m : Messages) :
    m.has_error = true ↔ ∃ t, (Level.error, t) ∈ m.msgs := by
  constructor
  · intro h
    rcases List.any_eq_true.mp h with ⟨⟨a, b⟩, hp, he⟩
    have ha : a = Level.error := by simpa using he
    subst ha
    exact ⟨b, hp⟩
  · rintro ⟨t, ht⟩
    exact List.any_eq_true.mpr ⟨(Level.error, t), ht, by simp⟩

theorem Messages.has_warning_iff (m : Messages) :
    m.has_warning = true ↔ ∃ t, (Level.warning, t) ∈ m.msgs := by
  constructor
  · intro h
    rcases List.any_eq_true.mp h with ⟨⟨a, b⟩, hp, he⟩
    have ha : a = Level.warning := by simpa using he
    subst ha
    exact ⟨b, hp⟩
  · rintro ⟨t, ht⟩
    exact List.any_eq_true.mpr ⟨(Level.warning, t), ht, by simp⟩

/-! ## Claim theorems -/

/-- C2: `sanity_check` maps the message set with the precedence
error > warning > info > clean: any error-level message makes it raise
`SanityCheckFailedException` regardless of warnings or infos; with no
error but some warning it returns the warning-summary string; with
messages but no error or warning it returns the info-summary string;
with no messages at all it returns the clean-bill string. -/
theorem sanity_check_severity_precedence (m : Messages) :
    ((∃ t, (Level.error, t) ∈ m.msgs) →
      sanity_check m
        = (Except.error (PyExc.sanityCheckFailed ("Sanity check failed with errors. See log.")),
           [Effect.logMessages]))
    ∧ ((¬ ∃ t, (Level.error, t) ∈ m.msgs) → (∃ t, (Level.warning, t) ∈ m.msgs) →
      sanity_check m
        = (Except.ok ("Sanity check exited with warnings. See log."), [Effect.logMessages]))
    ∧ ((¬ ∃ t, (Level.error, t) ∈ m.msgs) → (¬ ∃ t, (Level.warning, t) ∈ m.msgs) →
        m.msgs ≠ [] →
      sanity_check m
        = (Except.ok ("Sanity check exited with infos. See log."), [Effect.logMessages]))
    ∧ (m.msgs = [] →
      sanity_check m = (Except.ok ("No issues detected."), [Effect.logMessages])) := by
  refine ⟨?_, ?_, ?_, ?_⟩
  · intro h
    have he : m.has_error = true := (Messages.has_error_iff m).mpr h
    simp [sanity_check, he]
  · intro hne hw
    have he : m.has_error = false := by
      rcases Bool.eq_false_or_eq_true m.has_error with h | h
      · exact absurd ((Messages.has_error_iff m).mp h) hne
      · exact h
    have hw2 : m.has_warning = true := (Messages.has_warning_iff m).mpr hw
    simp [sanity_check, he, hw2]
  · intro hne hnw hlen
    have he : m.has_error = false := by
      rcases Bool.eq_false_or_eq_true m.has_error with h | h
      · exact absurd ((Messages.has_error_iff m).mp h) hne
      · exact h
    have hw : m.has_warning = false := by
      rcases Bool.eq_false_or_eq_true m.has_warning with h | h
      · exact absurd ((Messages.has_warning_iff m).mp h) hnw
      · exact h
    have hl : 0 < m.length := by
      have := List.length_pos.mpr hlen
      simpa [Messages.length] using this
    simp [sanity_check, he, hw, hl]
  · intro hnil
    simp [sanity_check, Messages.has_error, Messages.has_warning, Messages.length, hnil]

/-- Witness for C2 at a concrete message set holding one error and one
warning: the outcome is the error outcome. -/
theorem sanity_check_severity_precedence_witness :
    sanity_check ⟨[(Level.error, "e"), (Level.warning, "w")]⟩
      = (Except.error (PyExc.sanityCheckFailed ("Sanity check failed with errors. See log.")),
         [Effect.logMessages]) :=
  (sanity_check_severity_precedence ⟨[(Level.error, "e"), (Level.warning, "w")]⟩).1
    ⟨"e", by simp⟩

/-- C7: when no Tag, DocumentType, Correspondent or StoragePath has
the automatic matching algorithm, `train_classifier` returns at once:
no model load, no training run, no model write — the effect trace is
empty. -/
theorem train_classifier_noop_without_auto (c : Corpus) (env : TrainEnv)
    (ht : ∀ a ∈ c.tags, a ≠ MATCH_AUTO)
    (hd : ∀ a ∈ c.document_types, a ≠ MATCH_AUTO)
    (hc : ∀ a ∈ c.correspondents, a ≠ MATCH_AUTO)
    (hs : ∀ a ∈ c.storage_paths, a ≠ MATCH_AUTO) :
    train_classifier c env = (Except.ok (), []) := by
  have h1 : c.tags.any (fun a => a = MATCH_AUTO) = false := by
    simp only [List.any_eq_false, decide_eq_true_eq]
    exact ht
  have h2 : c.document_types.any (fun a => a = MATCH_AUTO) = false := by
    simp only [List.any_eq_false, decide_eq_true_eq]
    exact hd
  have h3 : c.correspondents.any (fun a => a = MATCH_AUTO) = false := by
    simp only [List.any_eq_false, decide_eq_true_eq]
    exact hc
  have h4 : c.storage_paths.any (fun a => a = MATCH_AUTO) = false := by
    simp only [List.any_eq_false, decide_eq_true_eq]
    exact hs
  simp [train_classifier, h1, h2, h3, h4]

/-- Witness for C7: a corpus whose entities all use non-automatic
matching algorithms triggers the no-op path. -/
theorem train_classifier_noop_without_auto_witness :
    train_classifier ⟨[1, 2], [], [3], [4]⟩ ⟨true, Except.ok true⟩
      = (Except.ok (), []) :=
  train_classifier_noop_without_auto ⟨[1, 2], [], [3], [4]⟩ ⟨true, Except.ok true⟩
    (by decide) (by decide) (by decide) (by decide)

/-- C9: `bulk_update_documents` first sends one post_save notification
per matching document, and only afterwards opens a single index writer
session that covers the whole batch: the trace splits at the single
`openWriter` with all post_save effects before it and only index
updates between it and the single `closeWriter`, and each matching
document gets both a notification and an index update. -/
theorem bulk_update_documents_notify_then_single_writer
    (db : List DocRec) (document_ids : List Nat) :
    ∃ l1 l2,
      bulk_update_documents db document_ids
          = l1 ++ Effect.openWriter :: l2 ++ [Effect.closeWriter]
      ∧ (∀ d ∈ db, document_ids.contains d.id = true →
            Effect.postSave d.id ∈ l1 ∧ Effect.indexUpdate d.id ∈ l2)
      ∧ (∀ e ∈ l1, ∀ k, e ≠ Effect.indexUpdate k)
      ∧ (∀ e ∈ l2, ∃ k, e = Effect.indexUpdate k)
      ∧ (bulk_update_documents db document_ids).count Effect.openWriter = 1
      ∧ (bulk_update_documents db document_ids).count Effect.closeWriter = 1 := by
  refine ⟨Effect.openIndex
            :: (db.filter (fun d => document_ids.contains d.id)).map
                (fun d => Effect.postSave d.id),
          (db.filter (fun d => document_ids.contains d.id)).map
            (fun d => Effect.indexUpdate d.id),
          ?_, ?_, ?_, ?_, ?_, ?_⟩
  · simp [bulk_update_documents]
  · intro d hd hin
    constructor
    · have : d ∈ db.filter (fun d => document_ids.contains d.id) :=
        List.mem_filter.mpr ⟨hd, hin⟩
      exact List.mem_cons_of_mem _ (List.mem_map_of_mem _ this)
    · have : d ∈ db.filter (fun d => document_ids.contains d.id) :=
        List.mem_filter.mpr ⟨hd, hin⟩
      exact List.mem_map_of_mem _ this
  · intro e he k
    rcases List.mem_cons.mp he with h | h
    · subst h; intro h2; cases h2
    · rcases List.mem_map.mp h with ⟨d, _, rfl⟩
      intro h2; cases h2
  · intro e he
    rcases List.mem_map.mp he with ⟨d, _, rfl⟩
    exact ⟨d.id, rfl⟩
  · have ha : List.count Effect.openWriter
        ((db.filter (fun d => decide (d.id ∈ document_ids))).map
          (fun d => Effect.postSave d.id)) = 0 :=
      List.count_eq_zero.mpr (by simp)
    have hb : List.count Effect.openWriter
        ((db.filter (fun d => decide (d.id ∈ document_ids))).map
          (fun d => Effect.indexUpdate d.id)) = 0 :=
      List.count_eq_zero.mpr (by simp)
    simp [bulk_update_documents, List.count_append, List.count_cons, ha, hb]
  · have ha : List.count Effect.closeWriter
        ((db.filter (fun d => decide (d.id ∈ document_ids))).map
          (fun d => Effect.postSave d.id)) = 0 :=
      List.count_eq_zero.mpr (by simp)
    have hb : List.count Effect.closeWriter
        ((db.filter (fun d => decide (d.id ∈ document_ids))).map
          (fun d => Effect.indexUpdate d.id)) = 0 :=
      List.count_eq_zero.mpr (by simp)
    simp [bulk_update_documents, List.count_append, List.count_cons, ha, hb]

/-- Witness for C9 at the scenario input: three records, ids [1,2,3],
yields a single writer session. -/
theorem bulk_update_documents_notify_then_single_writer_witness :
    (bulk_update_documents
        [⟨1, "application/pdf", none, "", none⟩,
         ⟨2, "application/pdf", none, "", none⟩,
         ⟨3, "application/pdf", none, "", none⟩]
        [1, 2, 3]).count Effect.openWriter = 1 := by
  obtain ⟨l1, l2, h1, h2, h3, h4, h5, h6⟩ :=
    bulk_update_documents_notify_then_single_writer
      [⟨1, "application/pdf", none, "", none⟩,
       ⟨2, "application/pdf", none, "", none⟩,
       ⟨3, "application/pdf", none, "", none⟩]
      [1, 2, 3]
  exact h5

/-- C1: inside `update_document_archive_file`, when parsing and
thumbnail production succeed, an archive artifact exists and either
filesystem move inside the atomic unit raises, the relational update
of archive_checksum, content and archive_filename does not survive:
the whole relational store after the call equals the store before it
(Django rolls the transaction back when the exception escapes the
`transaction.atomic()` block). -/
theorem update_document_archive_file_rollback_on_move_failure
    (env : ArchiveEnv) (db : DB) (document_id : Nat) (document : DocRec)
    (ap : String)
    (hdoc : db document_id = some document)
    (hpar : env.hasParserFor document.mime_type = true)
    (hparse : env.parseRaises = false)
    (hthumb : env.thumbRaises = false)
    (hap : env.archiveResultPath = some ap)
    (hmove : env.moveArchiveRaises = true ∨ env.moveThumbRaises = true) :
    (update_document_archive_file env db document_id).2.1 = db := by
  cases hA : env.moveArchiveRaises with
  | true =>
      simp [update_document_archive_file, hdoc, hpar, archiveTryBody,
            hparse, hthumb, hap, hA]
  | false =>
      rcases hmove with hm | hm
      · rw [hA] at hm; cases hm
      · simp [update_document_archive_file, hdoc, hpar, archiveTryBody,
              hparse, hthumb, hap, hA, hm]

/-- Witness for C1: a one-document store, a parser for its type, an
archive artifact produced, and a failing archive move leave the store
untouched. -/
theorem update_document_archive_file_rollback_witness :
    (update_document_archive_file
        ⟨fun _ => true, false, false, "/tmp/thumb.webp", some "/tmp/archive.pdf",
         "new text", "0123abcd", "0000001.pdf", "/media/archive/0000001.pdf",
         "/media/thumbnails/0000001.webp", true, false, false⟩
        (fun i => if i = 1 then some ⟨1, "application/pdf", none, "old", none⟩ else none)
        1).2.1
      = (fun i => if i = 1 then some ⟨1, "application/pdf", none, "old", none⟩ else none) :=
  update_document_archive_file_rollback_on_move_failure
    ⟨fun _ => true, false, false, "/tmp/thumb.webp", some "/tmp/archive.pdf",
     "new text", "0123abcd", "0000001.pdf", "/media/archive/0000001.pdf",
     "/media/thumbnails/0000001.webp", true, false, false⟩
    (fun i => if i = 1 then some ⟨1, "application/pdf", none, "old", none⟩ else none)
    1 ⟨1, "application/pdf", none, "old", none⟩ "/tmp/archive.pdf"
    (by simp) rfl rfl rfl rfl (Or.inl rfl)

/-- C5: when the document's MIME type has no registered parser,
`update_document_archive_file` returns without raising, its only
effect is one error log, and the relational store is returned exactly
as it was (no field of any record is written). -/
theorem update_document_archive_file_unknown_mime_skips
    (env : ArchiveEnv) (db : DB) (document_id : Nat) (document : DocRec)
    (hdoc : db document_id = some document)
    (hpar : env.hasParserFor document.mime_type = false) :
    update_document_archive_file env db document_id
      = (Except.ok (), db,
         [Effect.logError
            ("No parser found for mime type " ++ document.mime_type
              ++ ", cannot archive document (ID: " ++ toString document_id ++ ")")]) := by
  simp [update_document_archive_file, hdoc, hpar]

/-- Witness for C5: a record whose MIME type resolves to no parser is
left as-is after one error log. -/
theorem update_document_archive_file_unknown_mime_skips_witness :
    update_document_archive_file
        ⟨fun _ => false, false, false, "", none, "", "", "", "", "", false, false, false⟩
        (fun i => if i = 7 then some ⟨7, "video/x-unknown", none, "", none⟩ else none)
        7
      = (Except.ok (),
         (fun i => if i = 7 then some ⟨7, "video/x-unknown", none, "", none⟩ else none),
         [Effect.logError
            ("No parser found for mime type video/x-unknown, cannot archive document (ID: 7)")]) :=
  update_document_archive_file_unknown_mime_skips
    ⟨fun _ => false, false, false, "", none, "", "", "", "", "", false, false, false⟩
    (fun i => if i = 7 then some ⟨7, "video/x-unknown", none, "", none⟩ else none)
    7 ⟨7, "video/x-unknown", none, "", none⟩ (by simp) rfl

/-- C6: once a parser is resolved for an existing document, any
exception the try body raises (during parse, thumbnail production,
the atomic unit or the index update) is caught and logged, never
re-raised — the task always returns success — and `parser.cleanup()`
is the final effect on every exit path. -/
theorem update_document_archive_file_catches_and_cleans
    (env : ArchiveEnv) (db : DB) (document_id : Nat) (document : DocRec)
    (hdoc : db document_id = some document)
    (hpar : env.hasParserFor document.mime_type = true) :
    (update_document_archive_file env db document_id).1 = Except.ok ()
    ∧ ((update_document_archive_file env db document_id).2.2).getLast?
        = some Effect.cleanup
    ∧ (∀ e, (archiveTryBody env db document).1 = Except.error e →
        Effect.logException
            ("Error while parsing document (ID: " ++ toString document_id ++ ")")
          ∈ (update_document_archive_file env db document_id).2.2) := by
  have hu : update_document_archive_file env db document_id
      = match (archiveTryBody env db document).1 with
        | Except.ok _ =>
            (Except.ok (), (archiveTryBody env db document).2.1,
             Effect.constructParser :: (archiveTryBody env db document).2.2
               ++ [Effect.cleanup])
        | Except.error _ =>
            (Except.ok (), (archiveTryBody env db document).2.1,
             Effect.constructParser :: (archiveTryBody env db document).2.2
               ++ [Effect.logException
                     ("Error while parsing document (ID: " ++ toString document_id ++ ")"),
                   Effect.cleanup]) := by
    simp [update_document_archive_file, hdoc, hpar]
  refine ⟨?_, ?_, ?_⟩
  · rw [hu]
    cases h : (archiveTryBody env db document).1 <;> simp
  · rw [hu]
    cases h : (archiveTryBody env db document).1 with
    | ok v => exact effect_getLast_cons_append_one _ _ _
    | error e => exact effect_getLast_cons_append_two _ _ _ _
  · intro e he
    rw [hu, he]
    simp

/-- Witness for C6: a failing parse on an existing document is caught,
logged and followed by cleanup. -/
theorem update_document_archive_file_catches_and_cleans_witness :
    ((update_document_archive_file
        ⟨fun _ => true, true, false, "", none, "", "", "", "", "", false, false, false⟩
        (fun i => if i = 2 then some ⟨2, "application/pdf", none, "", none⟩ else none)
        2).1 = Except.ok ())
    ∧ ((update_document_archive_file
        ⟨fun _ => true, true, false, "", none, "", "", "", "", "", false, false, false⟩
        (fun i => if i = 2 then some ⟨2, "application/pdf", none, "", none⟩ else none)
        2).2.2).getLast? = some Effect.cleanup := by
  obtain ⟨h1, h2, h3⟩ :=
    update_document_archive_file_catches_and_cleans
      ⟨fun _ => true, true, false, "", none, "", "", "", "", "", false, false, false⟩
      (fun i => if i = 2 then some ⟨2, "application/pdf", none, "", none⟩ else none)
      2 ⟨2, "application/pdf", none, "", none⟩ (by simp) rfl
  exact ⟨h1, h2⟩

/-- C4: in `consume_file`, when separator barcodes are detected but
page separation produces zero sub-documents, nothing is deleted — in
particular the original source file is not — and normal consumption
of the original path proceeds. -/
theorem consume_file_empty_split_keeps_original
    (env : ConsumeEnv) (path : String) (o t : Option String)
    (hb : env.barcodesEnabled = true) (hs : env.supported = true)
    (hsep : env.separators ≠ []) (hp : env.pages = []) :
    (∀ q, Effect.unlink q ∉ (consume_file env path o t).2)
    ∧ Effect.tryConsume path ∈ (consume_file env path o t).2 := by
  constructor
  · intro q
    by_cases hm : env.mimeType = "image/tiff" <;>
      simp [consume_file, hb, hs, hsep, hp, hm, withTrace, tryConsumePart_trace]
  · by_cases hm : env.mimeType = "image/tiff" <;>
      simp [consume_file, hb, hs, hsep, hp, hm, withTrace, tryConsumePart_trace]

/-- Witness for C4: separators on page 2 but an empty separation
result leave the file undeleted and hand it to the consumer. -/
theorem consume_file_empty_split_keeps_original_witness :
    (∀ q, Effect.unlink q ∉
        (consume_file ⟨true, "application/pdf", true, "", [2], [],
            Except.ok (), Except.ok (some 4)⟩
          "/intake/scan.pdf" none none).2)
    ∧ Effect.tryConsume "/intake/scan.pdf" ∈
        (consume_file ⟨true, "application/pdf", true, "", [2], [],
            Except.ok (), Except.ok (some 4)⟩
          "/intake/scan.pdf" none none).2 :=
  consume_file_empty_split_keeps_original
    ⟨true, "application/pdf", true, "", [2], [], Except.ok (), Except.ok (some 4)⟩
    "/intake/scan.pdf" none none rfl rfl (by simp) rfl

/-- C10: when a supported TIFF is converted for scanning but no
separator is found (or separation yields nothing), the converted
temporary PDF is never deleted by `consume_file` — no deletion happens
at all — and normal consumption runs on the original path, not on the
converted file. -/
theorem consume_file_tiff_no_split_keeps_temp
    (env : ConsumeEnv) (path : String) (o t : Option String)
    (hb : env.barcodesEnabled = true) (hs : env.supported = true)
    (hm : env.mimeType = "image/tiff")
    (hempty : env.separators = [] ∨ env.pages = []) :
    Effect.convertTiff path env.convertedPath ∈ (consume_file env path o t).2
    ∧ (∀ q, Effect.unlink q ∉ (consume_file env path o t).2)
    ∧ Effect.tryConsume path ∈ (consume_file env path o t).2
    ∧ (∀ q, q ≠ path → Effect.tryConsume q ∉ (consume_file env path o t).2) := by
  by_cases hsep : env.separators = []
  · refine ⟨?_, ?_, ?_, ?_⟩
    · simp [consume_file, hb, hs, hm, hsep, withTrace, tryConsumePart_trace]
    · intro q
      simp [consume_file, hb, hs, hm, hsep, withTrace, tryConsumePart_trace]
    · simp [consume_file, hb, hs, hm, hsep, withTrace, tryConsumePart_trace]
    · intro q hq
      simp [consume_file, hb, hs, hm, hsep, withTrace, tryConsumePart_trace, hq]
  · have hp : env.pages = [] := by
      rcases hempty with h | h
      · exact absurd h hsep
      · exact h
    refine ⟨?_, ?_, ?_, ?_⟩
    · simp [consume_file, hb, hs, hm, hsep, hp, withTrace, tryConsumePart_trace]
    · intro q
      simp [consume_file, hb, hs, hm, hsep, hp, withTrace, tryConsumePart_trace]
    · simp [consume_file, hb, hs, hm, hsep, hp, withTrace, tryConsumePart_trace]
    · intro q hq
      simp [consume_file, hb, hs, hm, hsep, hp, withTrace, tryConsumePart_trace, hq]

/-- Witness for C10: a converted TIFF with no separators found. -/
theorem consume_file_tiff_no_split_keeps_temp_witness :
    Effect.convertTiff "/intake/scan.tiff" "/tmp/conv.pdf" ∈
        (consume_file ⟨true, "image/tiff", true, "/tmp/conv.pdf", [], [],
            Except.ok (), Except.ok (some 9)⟩
          "/intake/scan.tiff" none none).2
    ∧ (∀ q, Effect.unlink q ∉
        (consume_file ⟨true, "image/tiff", true, "/tmp/conv.pdf", [], [],
            Except.ok (), Except.ok (some 9)⟩
          "/intake/scan.tiff" none none).2) := by
  obtain ⟨h1, h2, h3, h4⟩ :=
    consume_file_tiff_no_split_keeps_temp
      ⟨true, "image/tiff", true, "/tmp/conv.pdf", [], [], Except.ok (), Except.ok (some 9)⟩
      "/intake/scan.tiff" none none rfl rfl rfl (Or.inl rfl)
  exact ⟨h1, h2⟩

/-- C3 counterexample: the publish handler catches only `OSError`.
At this concrete input the channel send raises a non-OSError
exception and `consume_file` propagates it instead of returning the
split outcome string. -/
theorem consume_file_publish_failure_propagates_counterexample :
    (consume_file
        ⟨true, "application/pdf", true, "", [1], ["blob0"],
         Except.error (PyExc.runtimeError ("channel send failed")), Except.ok (some 1)⟩
        "/intake/doc.pdf" none none).1
      = Except.error (PyExc.runtimeError ("channel send failed")) := by
  rfl

/-- C3 (amended): for every `OSError` the notification publish raises
on the split path, the failure is logged and not propagated — the
function still returns the split outcome string; exceptions of other
types are not caught there. -/
theorem consume_file_publish_oserror_logged_not_raised
    (env : ConsumeEnv) (path : String) (o t : Option String) (m : String)
    (hb : env.barcodesEnabled = true) (hs : env.supported = true)
    (hsep : env.separators ≠ []) (hp : env.pages ≠ [])
    (hpub : env.publishResult = Except.error (PyExc.osError m)) :
    (consume_file env path o t).1 = Except.ok ("File successfully split")
    ∧ Effect.logWarning m ∈ (consume_file env path o t).2 := by
  constructor
  · by_cases hm : env.mimeType = "image/tiff" <;>
      simp [consume_file, hb, hs, hsep, hp, hm, hpub, withTrace]
  · by_cases hm : env.mimeType = "image/tiff" <;>
      simp [consume_file, hb, hs, hsep, hp, hm, hpub, withTrace]

/-- Witness for C3 (amended): a broker outage raising `OSError` is
swallowed and the split outcome is still returned. -/
theorem consume_file_publish_oserror_logged_not_raised_witness :
    ((consume_file
        ⟨true, "application/pdf", true, "", [1], ["blob0"],
         Except.error (PyExc.osError ("broker down")), Except.ok (some 1)⟩
        "/intake/doc.pdf" none none).1 = Except.ok ("File successfully split"))
    ∧ Effect.logWarning "broker down" ∈
        (consume_file
          ⟨true, "application/pdf", true, "", [1], ["blob0"],
           Except.error (PyExc.osError ("broker down")), Except.ok (some 1)⟩
          "/intake/doc.pdf" none none).2 :=
  consume_file_publish_oserror_logged_not_raised
    ⟨true, "application/pdf", true, "", [1], ["blob0"],
     Except.error (PyExc.osError ("broker down")), Except.ok (some 1)⟩
    "/intake/doc.pdf" none none "broker down" rfl rfl (by simp) (by simp) rfl

/-- C8: on the split path (separators detected, at least one
sub-document, publish succeeds) every sub-document is written to the
intake directory — named by prefixing its zero-based index to the
filename override when one was supplied, with no name otherwise — the
original file is deleted only after all sub-documents are written (and
the TIFF-converted temp file is deleted too when one was created), the
function returns "File successfully split", and no part is
synchronously consumed. -/
theorem consume_file_split_path
    (env : ConsumeEnv) (path : String) (o t : Option String)
    (hb : env.barcodesEnabled = true) (hs : env.supported = true)
    (hsep : env.separators ≠ []) (hp : env.pages ≠ [])
    (hpub : env.publishResult = Except.ok ()) :
    (consume_file env path o t).1 = Except.ok ("File successfully split")
    ∧ (∀ f, o = some f → f ≠ "" → ∀ k, ∀ hk : k < env.pages.length,
        Effect.saveToDir (env.pages.get ⟨k, hk⟩)
            (some (toString k ++ "_" ++ f)) (parentDir path)
          ∈ (consume_file env path o t).2)
    ∧ (o = none → ∀ k, ∀ hk : k < env.pages.length,
        Effect.saveToDir (env.pages.get ⟨k, hk⟩) none (parentDir path)
          ∈ (consume_file env path o t).2)
    ∧ (∃ l1 l2, (consume_file env path o t).2 = l1 ++ Effect.unlink path :: l2
        ∧ (∀ k, ∀ hk : k < env.pages.length,
            Effect.saveToDir (env.pages.get ⟨k, hk⟩) (newnameFor o k) (parentDir path) ∈ l1)
        ∧ (∀ e ∈ l2, ∀ b nm d2, e ≠ Effect.saveToDir b nm d2))
    ∧ (env.mimeType = "image/tiff" →
        Effect.unlink env.convertedPath ∈ (consume_file env path o t).2)
    ∧ (∀ q, Effect.tryConsume q ∉ (consume_file env path o t).2) := by
  have hsave : ∀ k, ∀ hk : k < env.pages.length,
      Effect.saveToDir (env.pages.get ⟨k, hk⟩) (newnameFor o k) (parentDir path)
        ∈ saveLoop o (parentDir path) 0 env.pages := by
    intro k hk
    have h0 := saveLoop_mem_get o (parentDir path) env.pages 0 k hk
    rwa [Nat.zero_add] at h0
  by_cases hm : env.mimeType = "image/tiff"
  · have htr : (consume_file env path o t).2
        = Effect.convertTiff path env.convertedPath
            :: Effect.scanBarcodes env.convertedPath
            :: Effect.logDebug ("Pages with separators found in: " ++ path)
            :: Effect.separatePages env.convertedPath
            :: (saveLoop o (parentDir path) 0 env.pages
                ++ [Effect.logDebug ("Deleting file " ++ env.convertedPath),
                    Effect.unlink env.convertedPath,
                    Effect.logDebug ("Deleting file " ++ path),
                    Effect.unlink path,
                    Effect.publishAttempt (Payload.mk o t 100 100 "SUCCESS" "finished")]) := by
      simp [consume_file, hb, hs, hsep, hp, hm, hpub]
    refine ⟨?_, ?_, ?_, ?_, ?_, ?_⟩
    · simp [consume_file, hb, hs, hsep, hp, hm, hpub]
    · intro f hf hfne k hk
      have hname : newnameFor o k = some (toString k ++ "_" ++ f) := by
        simp [newnameFor, hf, hfne]
      rw [htr]
      have := hsave k hk
      rw [hname] at this
      exact List.mem_cons_of_mem _ (List.mem_cons_of_mem _ (List.mem_cons_of_mem _
        (List.mem_cons_of_mem _ (List.mem_append_left _ this))))
    · intro hf k hk
      have hname : newnameFor o k = none := by simp [newnameFor, hf]
      rw [htr]
      have := hsave k hk
      rw [hname] at this
      exact List.mem_cons_of_mem _ (List.mem_cons_of_mem _ (List.mem_cons_of_mem _
        (List.mem_cons_of_mem _ (List.mem_append_left _ this))))
    · refine ⟨Effect.convertTiff path env.convertedPath
            :: Effect.scanBarcodes env.convertedPath
            :: Effect.logDebug ("Pages with separators found in: " ++ path)
            :: Effect.separatePages env.convertedPath
            :: (saveLoop o (parentDir path) 0 env.pages
                ++ [Effect.logDebug ("Deleting file " ++ env.convertedPath),
                    Effect.unlink env.convertedPath,
                    Effect.logDebug ("Deleting file " ++ path)]),
          [Effect.publishAttempt (Payload.mk o t 100 100 "SUCCESS" "finished")],
          ?_, ?_, ?_⟩
      · rw [htr]
        simp
      · intro k hk
        exact List.mem_cons_of_mem _ (List.mem_cons_of_mem _ (List.mem_cons_of_mem _
          (List.mem_cons_of_mem _ (List.mem_append_left _ (hsave k hk)))))
      · intro e he b nm d2
        simp at he
        subst he
        intro hcontr
        cases hcontr
    · intro hmt
      rw [htr]
      simp
    · intro q
      rw [htr]
      simp
      intro hmem
      rcases saveLoop_shape o (parentDir path) env.pages 0 (Effect.tryConsume q) hmem
        with ⟨b, nm, hEq⟩
      cases hEq
  · have htr : (consume_file env path o t).2
        = Effect.scanBarcodes path
            :: Effect.logDebug ("Pages with separators found in: " ++ path)
            :: Effect.separatePages path
            :: (saveLoop o (parentDir path) 0 env.pages
                ++ [Effect.logDebug ("Deleting file " ++ path),
                    Effect.unlink path,
                    Effect.publishAttempt (Payload.mk o t 100 100 "SUCCESS" "finished")]) := by
      simp [consume_file, hb, hs, hsep, hp, hm, hpub]
    refine ⟨?_, ?_, ?_, ?_, ?_, ?_⟩
    · simp [consume_file, hb, hs, hsep, hp, hm, hpub]
    · intro f hf hfne k hk
      have hname : newnameFor o k = some (toString k ++ "_" ++ f) := by
        simp [newnameFor, hf, hfne]
      rw [htr]
      have := hsave k hk
      rw [hname] at this
      exact List.mem_cons_of_mem _ (List.mem_cons_of_mem _ (List.mem_cons_of_mem _
        (List.mem_append_left _ this)))
    · intro hf k hk
      have hname : newnameFor o k = none := by simp [newnameFor, hf]
      rw [htr]
      have := hsave k hk
      rw [hname] at this
      exact List.mem_cons_of_mem _ (List.mem_cons_of_mem _ (List.mem_cons_of_mem _
        (List.mem_append_left _ this)))
    · refine ⟨Effect.scanBarcodes path
            :: Effect.logDebug ("Pages with separators found in: " ++ path)
            :: Effect.separatePages path
            :: (saveLoop o (parentDir path) 0 env.pages
                ++ [Effect.logDebug ("Deleting file " ++ path)]),
          [Effect.publishAttempt (Payload.mk o t 100 100 "SUCCESS" "finished")],
          ?_, ?_, ?_⟩
      · rw [htr]
        simp
      · intro k hk
        exact List.mem_cons_of_mem _ (List.mem_cons_of_mem _ (List.mem_cons_of_mem _
          (List.mem_append_left _ (hsave k hk))))
      · intro e he b nm d2
        simp at he
        subst he
        intro hcontr
        cases hcontr
    · intro hmt
      exact absurd hmt hm
    · intro q
      rw [htr]
      simp
      intro hmem
      rcases saveLoop_shape o (parentDir path) env.pages 0 (Effect.tryConsume q) hmem
        with ⟨b, nm, hEq⟩
      cases hEq

/-- Witness for C8: a two-page split with a filename override returns
the split outcome string. -/
theorem consume_file_split_path_witness :
    (consume_file
        ⟨true, "application/pdf", true, "", [2], ["blob0", "blob1"],
         Except.ok (), Except.ok (some 1)⟩
        "/intake/scan.pdf" (some "orig.pdf") (some "task-1")).1
      = Except.ok ("File successfully split") :=
  (consume_file_split_path
    ⟨true, "application/pdf", true, "", [2], ["blob0", "blob1"],
     Except.ok (), Except.ok (some 1)⟩
    "/intake/scan.pdf" (some "orig.pdf") (some "task-1")
    rfl rfl (by simp) (by simp) rfl).1

end PaperlessTasks
